import Mathlib

/-!
Verification of the TensorFlow importer (`tf_importer/importer.py`) and the
NumPy backend kernels (`geon/backends/graph/nptransform.py`) of the ngraph
repository, as a shallow embedding in Lean 4.

Python string primitives (`str.split`, `str.strip`, `str.replace`, `int(...)`,
tuple indexing) are embedded as executable character-level functions so that
all definitions reduce in the kernel.
-/

namespace NGraph

/-- An internal ngraph operation.  Only the fields the importer touches are
modelled: the (mutable) `name`, plus a `uid` so distinct operations with equal
names stay distinguishable. -/
structure Op where
  name : String
  uid : Nat
deriving DecidableEq

/-- A Python value stored in `name_op_map` or passed around the construction
pass: `None` (the "missing" marker), a single `Op`, or a tuple of `Op`s.
Per the dispatch-bridge contract (spec section 4.2) tuples hold operations. -/
inductive Entry where
  | missing
  | single (op : Op)
  | tuple (ops : List Op)
deriving DecidableEq

/-- The Python exceptions the embedded importer code can raise. -/
inductive PyError where
  | keyError
  | assertionError
  | valueError
  | indexError
deriving DecidableEq

/-- Result of a dispatch-bridge call: `Operation | tuple(Operation) | None`
(spec section 4.2). -/
inductive BridgeResult where
  | none
  | single (op : Op)
  | tuple (ops : List Op)
deriving DecidableEq

/-- One external node of the interchange graph: `name`, `op` type tag and the
declared input reference strings. -/
structure TFNode where
  name : String
  op : String
  input : List String
deriving DecidableEq

/-- The importer's session state: `self.name_op_map` (an insertion-ordered
association list, most recent first), the fresh bridge's
`init_assign_op_names`, `self.init_ops` and `self.graph_def`. -/
structure ImporterState where
  name_op_map : List (String × Entry)
  init_assign_op_names : List String
  init_ops : List Entry
  graph_def : Option (List TFNode)
deriving DecidableEq

/-- Modelled from the spec: the dispatch bridge (`ops_bridge.py`, not among
the provided sources) maps an external node plus its already-resolved inputs
to one or more operations, consulting the assignment-dependency set.  It is
kept abstract as a function parameter. -/
abbrev Bridge := List String → TFNode → List Entry → BridgeResult

instance {ε α : Type} [DecidableEq ε] [DecidableEq α] : DecidableEq (Except ε α)
  | Except.ok a, Except.ok b =>
    if h : a = b then Decidable.isTrue (by rw [h]) else Decidable.isFalse (by simp [h])
  | Except.ok _, Except.error _ => Decidable.isFalse (by simp)
  | Except.error _, Except.ok _ => Decidable.isFalse (by simp)
  | Except.error e, Except.error f =>
    if h : e = f then Decidable.isTrue (by rw [h]) else Decidable.isFalse (by simp [h])

/-- Character-level model of Python `s.split(sep)` for a one-character
separator: always returns at least one (possibly empty) component. -/
def split_on_char (sep : Char) : List Char → List (List Char)
  | [] => [[]]
  | c :: rest =>
    match split_on_char sep rest with
    | [] => [[c]]
    | h :: t => if c = sep then [] :: h :: t else (c :: h) :: t

/-- Python `s.split(sep)` on strings. -/
def py_split (sep : Char) (s : String) : List String :=
  (split_on_char sep s.toList).map List.asString

/-- Whitespace characters stripped by Python `str.strip()`. -/
def is_py_space (c : Char) : Bool :=
  c = ' ' || c = '\t' || c = '\n' || c = '\r'

/-- Python `s.strip()`. -/
def py_strip (s : String) : String :=
  (((s.toList.dropWhile is_py_space).reverse.dropWhile is_py_space).reverse).asString

/-- Python `s.replace("/", "_")` as used in `post_process_op`: both arguments
are single characters, so the replacement is a character map. -/
def py_replace_slash (s : String) : String :=
  (s.toList.map (fun c => if c = '/' then '_' else c)).asString

/-- Value of a decimal digit character. -/
def digit_val? (c : Char) : Option Nat :=
  if '0' ≤ c ∧ c ≤ '9' then Option.some (c.toNat - '0'.toNat) else Option.none

/-- Accumulating decimal parse; fails on the first non-digit. -/
def digits_val_aux : List Char → Nat → Option Nat
  | [], acc => Option.some acc
  | c :: rest, acc =>
    match digit_val? c with
    | Option.none => Option.none
    | Option.some d => digits_val_aux rest (10 * acc + d)

/-- Python `int(s)` on a decimal string: surrounding whitespace and an
optional sign are accepted; anything else raises `ValueError`, modelled as
`Option.none`. -/
def py_int? (s : String) : Option Int :=
  match (py_strip s).toList with
  | [] => Option.none
  | '-' :: rest =>
    match rest with
    | [] => Option.none
    | _ => (digits_val_aux rest 0).map (fun n => -(n : Int))
  | '+' :: rest =>
    match rest with
    | [] => Option.none
    | _ => (digits_val_aux rest 0).map (fun n => (n : Int))
  | cs => (digits_val_aux cs 0).map (fun n => (n : Int))

/-- Modelled from the spec: `remove_tf_name_prefix` lives in
`tf_importer/utils.py`, which is not among the provided sources; spec
section 4.1 says a leading control-dependency marker `^` is stripped. -/
def remove_tf_name_prefix (name : String) : String :=
  match name.toList with
  | '^' :: rest => rest.asString
  | _ => name

/-- Python tuple indexing `ops[idx]`: negative indices count from the end,
out-of-range indices raise `IndexError`. -/
def py_tuple_get (ops : List Op) (idx : Int) : Except PyError Op :=
  if 0 ≤ idx then
    match ops[idx.toNat]? with
    | Option.some op => Except.ok op
    | Option.none => Except.error PyError.indexError
  else
    let j : Int := (ops.length : Int) + idx
    if 0 ≤ j then
      match ops[j.toNat]? with
      | Option.some op => Except.ok op
      | Option.none => Except.error PyError.indexError
    else Except.error PyError.indexError

/-- `TFImporter.get_op_handle_by_name` (importer.py lines 147-181): strip the
control prefix, split on `:`; with a suffix, assert exactly two components,
parse the index (`int` raises `ValueError`), index the raw `name_op_map`
(raises `KeyError` when the base name is absent), and either index a tuple
entry or assert index 0 on a non-tuple entry.  Without a suffix, return the
raw table entry. -/
def get_op_handle_by_name (name_op_map : List (String × Entry)) (name : String) :
    Except PyError Entry :=
  match py_split ':' ( remove_tf_name_prefix name) with
  | [name_truncated, idx_str] =>
    match py_int? idx_str with
    | Option.none => Except.error PyError.valueError
    | Option.some idx =>
      match name_op_map.lookup name_truncated with
      | Option.none => Except.error PyError.keyError
      | Option.some outputs =>
        match outputs with
        | Entry.tuple ops =>
          match py_tuple_get ops idx with
          | Except.error e => Except.error e
          | Except.ok op => Except.ok (Entry.single op)
        | _ => if idx = 0 then Except.ok outputs else Except.error PyError.assertionError
  | [base] =>
    match name_op_map.lookup base with
    | Option.none => Except.error PyError.keyError
    | Option.some v => Except.ok v
  | _ => Except.error PyError.assertionError

/-- The construction pass's input resolution, `[self.get_op_handle_by_name(name)
for name in tf_node.input]`: left to right, the first exception propagates. -/
def resolve_inputs (name_op_map : List (String × Entry)) : List String → Except PyError (List Entry)
  | [] => Except.ok []
  | n :: rest =>
    match get_op_handle_by_name name_op_map n with
    | Except.error e => Except.error e
    | Except.ok v =>
      match resolve_inputs name_op_map rest with
      | Except.error e => Except.error e
      | Except.ok vs => Except.ok (v :: vs)

/-- `TFImporter.post_process_op` (importer.py lines 125-145): `None` passes
through; otherwise the op's name has every `/` replaced by `_`. -/
def post_process_op : Option Op → Option Op
  | Option.none => Option.none
  | Option.some op => Option.some { op with name := py_replace_slash op.name }

/-- `parse_graph_def`'s "convert to list for convenience" step: a tuple result
becomes its element list, anything else is wrapped in a one-element list. -/
def normalize_output : BridgeResult → List (Option Op)
  | BridgeResult.tuple ops => ops.map Option.some
  | BridgeResult.single op => [Option.some op]
  | BridgeResult.none => [Option.none]

/-- `parse_graph_def`'s "convert back to tuple or op" step: a list of length
`> 1` becomes a tuple entry, otherwise `output_op[0]` is stored (raising
`IndexError` on an empty list). -/
def repack (processed : List (Option Op)) : Except PyError Entry :=
  if processed.length > 1 then
    Except.ok (Entry.tuple (processed.filterMap id))
  else
    match processed with
    | [] => Except.error PyError.indexError
    | v :: _ =>
      match v with
      | Option.none => Except.ok Entry.missing
      | Option.some op => Except.ok (Entry.single op)

/-- The tail of the construction pass for one node: append the entry to
`init_ops` when the node is the designated `NoOp`/`init` node, then insert it
into `name_op_map` under the node's own (un-sanitized) name. -/
def store_entry (s : ImporterState) (tf_node : TFNode) (entry : Entry) : ImporterState :=
  let s1 :=
    if tf_node.op = "NoOp" ∧ tf_node.name = "init" then
      { s with init_ops := s.init_ops ++ [entry] }
    else s
  { s1 with name_op_map := (tf_node.name, entry) :: s1.name_op_map }

/-- One iteration of the construction pass (importer.py lines 85-123):
resolve the inputs; if any is `None`, skip the bridge and use `None`;
otherwise call the bridge; normalize, post-process, repack and store. -/
def process_node (bridge : Bridge) (s : ImporterState) (tf_node : TFNode) :
    Except PyError ImporterState :=
  match resolve_inputs s.name_op_map tf_node.input with
  | Except.error e => Except.error e
  | Except.ok input_ops =>
    let output_op : BridgeResult :=
      if Entry.missing ∈ input_ops then BridgeResult.none
      else bridge s.init_assign_op_names tf_node input_ops
    match repack ((normalize_output output_op).map post_process_op) with
    | Except.error e => Except.error e
    | Except.ok entry => Except.ok (store_entry s tf_node entry)

/-- Set union of name lists (Python `set` union): appends the names not
already present; consumers only test membership. -/
def list_union (acc : List String) (names : List String) : List String :=
  names.foldl (fun a n => if n ∈ a then a else a ++ [n]) acc

/-- Pass 1 of `parse_graph_def` (importer.py lines 76-82): for every
`NoOp`/`init` node, union its prefix-stripped input names into the bridge's
`init_assign_op_names`. -/
def discovery_pass (s : ImporterState) (nodes : List TFNode) : ImporterState :=
  nodes.foldl
    (fun st tf_node =>
      if tf_node.op = "NoOp" ∧ tf_node.name = "init" then
        let assign_op_names := tf_node.input.map (fun n => remove_tf_name_prefix n)
        { st with init_assign_op_names := list_union st.init_assign_op_names assign_op_names }
      else st)
    s

/-- `TFImporter.parse_graph_def` (importer.py lines 66-123): record the graph,
run the discovery pass, then the construction pass node by node; the first
uncaught exception aborts the call. -/
def parse_graph_def (bridge : Bridge) (s : ImporterState) (nodes : List TFNode) :
    Except PyError ImporterState :=
  let s1 := { s with graph_def := Option.some nodes }
  let s2 := discovery_pass s1 nodes
  nodes.foldlM (fun st tf_node => process_node bridge st tf_node) s2

/-- `TFImporter.reset` (importer.py lines 38-45): fresh empty session state. -/
def fresh_state : ImporterState :=
  { name_op_map := [], init_assign_op_names := [], init_ops := [],
    graph_def := Option.none }

/-- `self.reset()`: the previous state is discarded entirely. -/
def reset (_s : ImporterState) : ImporterState := fresh_state

/-- Arity tag of a table entry: missing, single, or a tuple of a given
length. -/
inductive Arity where
  | missing
  | single
  | tuple (n : Nat)
deriving DecidableEq

/-- The arity recorded for one `name_op_map` entry. -/
def entry_arity : Entry → Arity
  | Entry.missing => Arity.missing
  | Entry.single _ => Arity.single
  | Entry.tuple ops => Arity.tuple ops.length

/-- `_get_unimplemented_ops`'s per-line extraction (importer.py line 216):
`line.split(' ')[1][1:-1]`, where `[1]` raises `IndexError` when absent and
`[1:-1]` strips the surrounding quotes. -/
def extract_op_name (line : String) : Except PyError String :=
  match (py_split ' ' line)[1]? with
  | Option.none => Except.error PyError.indexError
  | Option.some w => Except.ok (((w.toList.drop 1).dropLast).asString)

/-- Extraction over all `op:` lines, left to right, first exception
propagates. -/
def extract_ops : List String → Except PyError (List String)
  | [] => Except.ok []
  | l :: rest =>
    match extract_op_name l with
    | Except.error e => Except.error e
    | Except.ok n =>
      match extract_ops rest with
      | Except.error e => Except.error e
      | Except.ok ns => Except.ok (n :: ns)

/-- The `required_ops` set of `_get_unimplemented_ops` (importer.py lines
208-217): strip every line, keep the lines starting with `op:`, extract the
quoted op name, and collect into a set (modelled as a deduplicated list). -/
def required_ops_of_lines (lines : List String) : Except PyError (List String) :=
  let stripped := lines.map py_strip
  let op_lines := stripped.filter (fun l => l.toList.take 3 == "op:".toList)
  match extract_ops op_lines with
  | Except.error e => Except.error e
  | Except.ok names => Except.ok names.dedup

/-- Python `sorted(...)` on strings, modelled by insertion sort under the
lexicographic order. -/
def py_sorted (l : List String) : List String :=
  List.insertionSort (fun a b => a ≤ b) l

/-- `TFImporter._get_unimplemented_ops` (importer.py lines 198-228): the
required ops of the input minus the bridge's supported set, sorted.  The
supported set is computed in the source by reflection over the `OpsBridge`
instance (`dir(ob)`), which is outside the provided sources, so it is an
abstract parameter here. -/
def get_unimplemented_ops (lines : List String) (supported_ops : List String) :
    Except PyError (List String) :=
  match required_ops_of_lines lines with
  | Except.error e => Except.error e
  | Except.ok required =>
    Except.ok (py_sorted (required.filter (fun n => ¬ n ∈ supported_ops)))

/-!
Embedding of `NumPyTransformer` (nptransform.py).  Backend storage is a heap
of buffers addressed by identity; a NumPy call with an `out=` argument
overwrites the contents of the `out` buffer and touches nothing else.
Elements are modelled as integers; the scalar functions of the
floating-point kernels (`cos`, `divide`, `exp`, `log`, `reciprocal`, `sin`,
`sqrt`, `tanh`) are NumPy primitives external to the sources, kept abstract
as parameters, while the kernels' dispatch-and-write structure is embedded.
-/

/-- Contents of one allocated tensor view. -/
abbrev Buf := List Int

/-- Backend storage: buffer identity to current contents. -/
abbrev Heap := Nat → Buf

/-- A NumPy call that writes its result `v` into the already-allocated view
`out` in place: the heap keeps every other buffer untouched. -/
def np_write (σ : Heap) (out : Nat) (v : Buf) : Heap :=
  fun b => if b = out then v else σ b

/-- `out` now holds `v` and every other buffer kept its previous contents:
the in-place kernel contract. -/
def in_place (σ σ2 : Heap) (out : Nat) (v : Buf) : Prop :=
  σ2 out = v ∧ ∀ b, b ≠ out → σ2 b = σ b

/-- `np.max` of a 1-D view along axis 0 (empty input raises in NumPy and is
unreachable for allocated views). -/
def np_amax (l : Buf) : Buf :=
  match l.max? with
  | Option.some m => [m]
  | Option.none => []

/-- `np.min` of a 1-D view along axis 0. -/
def np_amin (l : Buf) : Buf :=
  match l.min? with
  | Option.some m => [m]
  | Option.none => []

/-- Index of the first maximal element. -/
def np_argmax_aux : List Int → Nat → Nat → Int → Nat
  | [], _, best, _ => best
  | a :: rest, i, best, bestv =>
    if bestv < a then np_argmax_aux rest (i + 1) i a
    else np_argmax_aux rest (i + 1) best bestv

/-- `np.ndarray.argmax(x, 0, out)`'s value on a 1-D view. -/
def np_argmax : Buf → Buf
  | [] => []
  | a :: rest => [(np_argmax_aux rest 1 0 a : Int)]

/-- Index of the first minimal element. -/
def np_argmin_aux : List Int → Nat → Nat → Int → Nat
  | [], _, best, _ => best
  | a :: rest, i, best, bestv =>
    if a < bestv then np_argmin_aux rest (i + 1) i a
    else np_argmin_aux rest (i + 1) best bestv

/-- `np.ndarray.argmin(x, 0, out)`'s value on a 1-D view. -/
def np_argmin : Buf → Buf
  | [] => []
  | a :: rest => [(np_argmin_aux rest 1 0 a : Int)]

/-- `np.dot` of two 1-D views: their scalar product. -/
def np_dot (x y : Buf) : Buf :=
  [(List.zipWith (fun a b => a * b) x y).foldl (fun a b => a + b) 0]

/-- `np.sum(x, axis=0)` of a 1-D view. -/
def np_sum0 (l : Buf) : Buf :=
  [l.foldl (fun a b => a + b) 0]

namespace NumPyTransformer

/-- `np.abs(x, out=out)`. -/
def absolute (σ : Heap) (x out : Nat) : Heap :=
  np_write σ out ((σ x).map (fun a => |a|))

/-- `np.add(x, y, out=out)`. -/
def add (σ : Heap) (x y out : Nat) : Heap :=
  np_write σ out (List.zipWith (fun a b => a + b) (σ x) (σ y))

/-- `np.ndarray.argmax(x, 0, out)`. -/
def argmax (σ : Heap) (x out : Nat) : Heap :=
  np_write σ out (np_argmax (σ x))

/-- `np.ndarray.argmin(x, 0, out)`. -/
def argmin (σ : Heap) (x out : Nat) : Heap :=
  np_write σ out (np_argmin (σ x))

/-- `np.cos(x, out=out)`; the scalar cosine `f` is NumPy's float primitive. -/
def cos (f : Int → Int) (σ : Heap) (x out : Nat) : Heap :=
  np_write σ out ((σ x).map f)

/-- `np.divide(x, y, out=out)`; scalar true division `f` is NumPy's float
primitive. -/
def divide (f : Int → Int → Int) (σ : Heap) (x y out : Nat) : Heap :=
  np_write σ out (List.zipWith f (σ x) (σ y))

/-- `np.dot(x, y, out)` on 1-D views. -/
def dot (σ : Heap) (x y out : Nat) : Heap :=
  np_write σ out (np_dot (σ x) (σ y))

/-- `np.equal(x, y, out=out)`; booleans are stored as 0/1. -/
def equal (σ : Heap) (x y out : Nat) : Heap :=
  np_write σ out (List.zipWith (fun a b => if a = b then 1 else 0) (σ x) (σ y))

/-- `np.exp(x, out=out)`; scalar `f` external. -/
def exp (f : Int → Int) (σ : Heap) (x out : Nat) : Heap :=
  np_write σ out ((σ x).map f)

/-- `out.fill(value)` (nptransform.py line 25): overwrite every element of the
already-allocated `out` view, keeping its shape. -/
def fill (σ : Heap) (out : Nat) (value : Int) : Heap :=
  np_write σ out ((σ out).map (fun _ => value))

/-- `np.greater(x, y, out=out)`. -/
def greater (σ : Heap) (x y out : Nat) : Heap :=
  np_write σ out (List.zipWith (fun a b => if b < a then 1 else 0) (σ x) (σ y))

/-- `np.greater_equal(x, y, out=out)`. -/
def greater_equal (σ : Heap) (x y out : Nat) : Heap :=
  np_write σ out (List.zipWith (fun a b => if b ≤ a then 1 else 0) (σ x) (σ y))

/-- `np.less(x, y, out=out)`. -/
def less (σ : Heap) (x y out : Nat) : Heap :=
  np_write σ out (List.zipWith (fun a b => if a < b then 1 else 0) (σ x) (σ y))

/-- `np.less_equal(x, y, out=out)`. -/
def less_equal (σ : Heap) (x y out : Nat) : Heap :=
  np_write σ out (List.zipWith (fun a b => if a ≤ b then 1 else 0) (σ x) (σ y))

/-- `np.log(x, out=out)`; scalar `f` external. -/
def log (f : Int → Int) (σ : Heap) (x out : Nat) : Heap :=
  np_write σ out ((σ x).map f)

/-- `np.max(x, axis, out=out)` on a 1-D view (axis 0, the only valid axis). -/
def max (σ : Heap) (x out : Nat) : Heap :=
  np_write σ out (np_amax (σ x))

/-- `np.maximum(x, y, out=out)`. -/
def maximum (σ : Heap) (x y out : Nat) : Heap :=
  np_write σ out (List.zipWith (fun a b => Max.max a b) (σ x) (σ y))

/-- `np.min(x, axis, out=out)` on a 1-D view. -/
def min (σ : Heap) (x out : Nat) : Heap :=
  np_write σ out (np_amin (σ x))

/-- `np.minimum(x, y, out=out)`. -/
def minimum (σ : Heap) (x y out : Nat) : Heap :=
  np_write σ out (List.zipWith (fun a b => Min.min a b) (σ x) (σ y))

/-- `np.multiply(x, y, out=out)`. -/
def multiply (σ : Heap) (x y out : Nat) : Heap :=
  np_write σ out (List.zipWith (fun a b => a * b) (σ x) (σ y))

/-- `np.negative(x, out=out)`. -/
def negative (σ : Heap) (x out : Nat) : Heap :=
  np_write σ out ((σ x).map (fun a => -a))

/-- `np.not_equal(x, y, out=out)`. -/
def not_equal (σ : Heap) (x y out : Nat) : Heap :=
  np_write σ out (List.zipWith (fun a b => if a = b then 0 else 1) (σ x) (σ y))

/-- `np.reciprocal(x, out=out)`; scalar `f` external. -/
def reciprocal (f : Int → Int) (σ : Heap) (x out : Nat) : Heap :=
  np_write σ out ((σ x).map f)

/-- `np.sign(x, out=out)`. -/
def sign (σ : Heap) (x out : Nat) : Heap :=
  np_write σ out ((σ x).map (fun a => if a < 0 then -1 else if a = 0 then 0 else 1))

/-- `np.sin(x, out=out)`; scalar `f` external. -/
def sin (f : Int → Int) (σ : Heap) (x out : Nat) : Heap :=
  np_write σ out ((σ x).map f)

/-- `np.sqrt(x, out=out)`; scalar `f` external. -/
def sqrt (f : Int → Int) (σ : Heap) (x out : Nat) : Heap :=
  np_write σ out ((σ x).map f)

/-- `np.square(x, out=out)`. -/
def square (σ : Heap) (x out : Nat) : Heap :=
  np_write σ out ((σ x).map (fun a => a * a))

/-- `np.subtract(x, y, out=out)`. -/
def subtract (σ : Heap) (x y out : Nat) : Heap :=
  np_write σ out (List.zipWith (fun a b => a - b) (σ x) (σ y))

/-- `np.sum(x, axis=axis, out=out)` on a 1-D view (axis 0). -/
def sum (σ : Heap) (x out : Nat) : Heap :=
  np_write σ out (np_sum0 (σ x))

/-- `np.tanh(x, out=out)`; scalar `f` external. -/
def tanh (f : Int → Int) (σ : Heap) (x out : Nat) : Heap :=
  np_write σ out ((σ x).map f)

/-- `tensor.__setitem__(item, value)`: indexed assignment into the existing
view. -/
def set_item (σ : Heap) (tensor : Nat) (item : Nat) (value : Int) : Heap :=
  np_write σ tensor ((σ tensor).set item value)

end NumPyTransformer

/-- Collecting the payloads of a list of `some`s: the repack step's
`tuple(...)` on a list that came from a bridge tuple of operations. -/
theorem filterMap_id_map_some {α β : Type} (g : α → β) (l : List α) :
    (l.map (fun o => Option.some (g o))).filterMap id = l.map g := by
  induction l with
  | nil => rfl
  | cons a t ih => simp [List.filterMap_cons, ih]

/-! Concrete instances used by counterexamples and witnesses. -/

/-- A dispatch bridge producing a single operation named after the node. -/
def demo_bridge : Bridge := fun _ tf_node _ => BridgeResult.single ⟨tf_node.name, 0⟩

/-- A dispatch bridge always returning `None` (unsupported op type). -/
def null_bridge : Bridge := fun _ _ _ => BridgeResult.none

/-- A dispatch bridge returning a one-element tuple. -/
def one_tuple_bridge : Bridge := fun _ _ _ => BridgeResult.tuple [⟨"t", 7⟩]

/-- A dispatch bridge returning a two-element tuple with a slash in one name. -/
def two_tuple_bridge : Bridge := fun _ _ _ => BridgeResult.tuple [⟨"t/u", 0⟩, ⟨"v", 1⟩]

/-- A dispatch bridge producing an op named after the node, uid 42. -/
def slash_bridge : Bridge := fun _ tf_node _ => BridgeResult.single ⟨tf_node.name, 42⟩

/-- A node with no inputs. -/
def node_foo : TFNode := ⟨"n", "Foo", []⟩

/-- A node whose name contains path separators. -/
def node_abc : TFNode := ⟨"a/b/c", "Var", []⟩

/-- A node referencing `"a"` as input. -/
def node_b : TFNode := ⟨"b", "Add", ["a"]⟩

/-- Two sample operations behind a tuple entry. -/
def op_pA : Op := ⟨"pA", 0⟩

/-- Second sample operation. -/
def op_pB : Op := ⟨"pB", 1⟩

/-- A table holding one tuple-valued entry under `"b"`. -/
def demo_map : List (String × Entry) := [("b", Entry.tuple [op_pA, op_pB])]

/-- A table holding one single-valued entry under `"s"`. -/
def single_map : List (String × Entry) := [("s", Entry.single ⟨"s", 5⟩)]

/-- A session state whose table records `"a"` as missing. -/
def st_missing_a : ImporterState :=
  { name_op_map := [("a", Entry.missing)], init_assign_op_names := [],
    init_ops := [], graph_def := Option.none }

/-- A non-fresh session state, used to exercise `reset`. -/
def dirty_state : ImporterState :=
  { name_op_map := [("junk", Entry.missing)], init_assign_op_names := ["z"],
    init_ops := [Entry.missing], graph_def := Option.none }

/-- The state produced by parsing `[node_foo]` with `demo_bridge` from fresh. -/
def parsed_foo : ImporterState :=
  { name_op_map := [("n", Entry.single ⟨"n", 0⟩)], init_assign_op_names := [],
    init_ops := [], graph_def := Option.some [node_foo] }

/-- Protobuf text lines containing one node of op type `FancyNewOp`. -/
def demo_lines : List String := ["name: \"x\"", "op: \"FancyNewOp\""]

/-! Claim theorems. -/

/-- C1, counterexample: a declared input whose base-name is absent from the
table does NOT resolve to the missing marker — `name_op_map[name]` raises
`KeyError` and the import call aborts with that exception, contrary to the
claim that the import completes without raising. -/
theorem c1_counterexample :
    get_op_handle_by_name [] "a" = Except.error PyError.keyError ∧
    parse_graph_def demo_bridge fresh_state [node_b] = Except.error PyError.keyError :=
  ⟨by decide, by decide⟩

/-- C1 (amended): resolving an unsuffixed reference whose base-name is absent
from the table raises `KeyError`, which aborts the enclosing import call; the
missing marker is returned only when the base-name is present in the table and
recorded as missing. -/
theorem c1_absent_name_raises_keyerror :
    ∀ (m : List (String × Entry)) (name : String),
      remove_tf_name_prefix name = name →
      py_split ':' name = [name] →
      (m.lookup name = Option.none →
        get_op_handle_by_name m name = Except.error PyError.keyError) ∧
      (m.lookup name = Option.some Entry.missing →
        get_op_handle_by_name m name = Except.ok Entry.missing) ∧
      (∀ (bridge : Bridge) (s : ImporterState) (tf_node : TFNode),
        s.name_op_map = m → tf_node.input = [name] → m.lookup name = Option.none →
        process_node bridge s tf_node = Except.error PyError.keyError) := by
  intro m name h1 h2
  refine ⟨?_, ?_, ?_⟩
  · intro h3
    simp [get_op_handle_by_name, h1, h2, h3]
  · intro h3
    simp [get_op_handle_by_name, h1, h2, h3]
  · intro bridge s tf_node hs hin h3
    have hget : get_op_handle_by_name m name = Except.error PyError.keyError := by
      simp [get_op_handle_by_name, h1, h2, h3]
    simp [process_node, hs, hin, resolve_inputs, hget]

/-- C1, witness for the amended claim at a concrete table and name. -/
theorem c1_witness :
    get_op_handle_by_name [("a", Entry.missing)] "a" = Except.ok Entry.missing :=
  ((c1_absent_name_raises_keyerror [("a", Entry.missing)] "a" (by decide) (by decide)).2).1
    (by decide)

/-- C2: when the resolved inputs contain the missing marker, the node is
recorded as missing, the pass continues (no exception), and the dispatch
bridge is not consulted — the outcome is the same for every bridge. -/
theorem c2_missing_input_skips_bridge :
    ∀ (bridge : Bridge) (s : ImporterState) (tf_node : TFNode) (input_ops : List Entry),
      resolve_inputs s.name_op_map tf_node.input = Except.ok input_ops →
      Entry.missing ∈ input_ops →
      process_node bridge s tf_node = Except.ok (store_entry s tf_node Entry.missing) ∧
      (store_entry s tf_node Entry.missing).name_op_map
        = (tf_node.name, Entry.missing) :: s.name_op_map ∧
      (∀ bridge2 : Bridge, process_node bridge2 s tf_node = process_node bridge s tf_node) := by
  intro bridge s tf_node input_ops hres hmem
  have key : ∀ br : Bridge,
      process_node br s tf_node = Except.ok (store_entry s tf_node Entry.missing) := by
    intro br
    simp [process_node, hres, hmem, normalize_output, post_process_op, repack]
  refine ⟨key bridge, ?_, fun bridge2 => (key bridge2).trans (key bridge).symm⟩
  simp only [store_entry]
  split <;> rfl

/-- C2, witness: a node with a missing input is processed identically under
two different bridges. -/
theorem c2_witness :
    process_node null_bridge st_missing_a node_b = process_node demo_bridge st_missing_a node_b :=
  (c2_missing_input_skips_bridge demo_bridge st_missing_a node_b [Entry.missing]
    (by decide) (by decide)).2.2 null_bridge

/-- C3, counterexample: for a tuple-valued entry the unsuffixed reference
returns the whole stored tuple, not the 0-th element, so the claimed default
`k = 0` does not hold for unsuffixed references. -/
theorem c3_counterexample :
    get_op_handle_by_name demo_map "b" = Except.ok (Entry.tuple [op_pA, op_pB]) ∧
    Entry.tuple [op_pA, op_pB] ≠ Entry.single op_pA :=
  ⟨by decide, by decide⟩

/-- C3 (amended): a suffixed reference `base:k` on a tuple-valued entry
returns the k-th element; an unsuffixed reference returns the stored entry
unchanged (the whole tuple for tuple entries); the suffix-default equivalence
holds only for single-valued entries, where `base:0` returns the stored
single operation. -/
theorem c3_suffix_lookup_indexes_tuples :
    ∀ (m : List (String × Entry)) (name base sfx : String) (k : Int) (ops : List Op)
      (r op : Op) (e : Entry),
      ( remove_tf_name_prefix name = name →
        py_split ':' name = [base, sfx] →
        py_int? sfx = Option.some k →
        m.lookup base = Option.some (Entry.tuple ops) →
        0 ≤ k →
        ops[k.toNat]? = Option.some r →
        get_op_handle_by_name m name = Except.ok (Entry.single r)) ∧
      ( remove_tf_name_prefix name = name →
        py_split ':' name = [name] →
        m.lookup name = Option.some e →
        get_op_handle_by_name m name = Except.ok e) ∧
      ( remove_tf_name_prefix name = name →
        py_split ':' name = [base, sfx] →
        py_int? sfx = Option.some 0 →
        m.lookup base = Option.some (Entry.single op) →
        get_op_handle_by_name m name = Except.ok (Entry.single op)) := by
  intro m name base sfx k ops r op e
  refine ⟨?_, ?_, ?_⟩
  · intro h1 h2 h3 h4 h5 h6
    simp [get_op_handle_by_name, h1, h2, h3, h4, py_tuple_get, h5, h6]
  · intro h1 h2 h3
    simp [get_op_handle_by_name, h1, h2, h3]
  · intro h1 h2 h3 h4
    simp [get_op_handle_by_name, h1, h2, h3, h4]

/-- C3, witness: indexing the second element through the suffixed reference. -/
theorem c3_witness :
    get_op_handle_by_name demo_map "b:1" = Except.ok (Entry.single op_pB) :=
  (c3_suffix_lookup_indexes_tuples demo_map "b:1" "b" "1" 1 [op_pA, op_pB] op_pB op_pA
    Entry.missing).1 (by decide) (by decide) (by decide) (by decide) (by decide) (by decide)

/-- C4, counterexample: a one-element tuple returned by the bridge is stored
as the single post-processed operation, not as a tuple — the repack goes by
length (`> 1`), not by the bridge's original arity. -/
theorem c4_counterexample :
    parse_graph_def one_tuple_bridge fresh_state [node_foo] =
      Except.ok { name_op_map := [("n", Entry.single ⟨"t", 7⟩)], init_assign_op_names := [],
                  init_ops := [], graph_def := Option.some [node_foo] } ∧
    Entry.single ⟨"t", 7⟩ ≠ Entry.tuple [⟨"t", 7⟩] :=
  ⟨by decide, by decide⟩

/-- C4 (amended): a tuple result of length at least two is stored as the
tuple of post-processed operations and a single result as the single
post-processed operation; a length-one tuple is unpacked and stored as a
single operation, and an empty tuple raises `IndexError`. -/
theorem c4_repack_by_length :
    ∀ (bridge : Bridge) (s : ImporterState) (tf_node : TFNode) (input_ops : List Entry)
      (ops : List Op) (op : Op),
      resolve_inputs s.name_op_map tf_node.input = Except.ok input_ops →
      Entry.missing ∉ input_ops →
      ( bridge s.init_assign_op_names tf_node input_ops = BridgeResult.tuple ops →
        2 ≤ ops.length →
        process_node bridge s tf_node =
          Except.ok (store_entry s tf_node
            (Entry.tuple (ops.map (fun o => { o with name := py_replace_slash o.name }))))) ∧
      ( bridge s.init_assign_op_names tf_node input_ops = BridgeResult.single op →
        process_node bridge s tf_node =
          Except.ok (store_entry s tf_node
            (Entry.single { op with name := py_replace_slash op.name }))) ∧
      ( bridge s.init_assign_op_names tf_node input_ops = BridgeResult.tuple [op] →
        process_node bridge s tf_node =
          Except.ok (store_entry s tf_node
            (Entry.single { op with name := py_replace_slash op.name }))) ∧
      ( bridge s.init_assign_op_names tf_node input_ops = BridgeResult.tuple [] →
        process_node bridge s tf_node = Except.error PyError.indexError) := by
  intro bridge s tf_node input_ops ops op hres hmem
  refine ⟨?_, ?_, ?_, ?_⟩
  · intro hbr hlen
    simp only [process_node, hres]
    rw [if_neg hmem, hbr]
    have h1 : ((normalize_output (BridgeResult.tuple ops)).map post_process_op)
        = ops.map (fun o => Option.some { o with name := py_replace_slash o.name }) := by
      simp [normalize_output, post_process_op, List.map_map, Function.comp]
    rw [h1]
    have hl : (ops.map (fun o => Option.some { o with name := py_replace_slash o.name })).length > 1 := by
      simp only [List.length_map]
      omega
    simp only [repack, if_pos hl]
    rw [filterMap_id_map_some (fun o => ({ o with name := py_replace_slash o.name } : Op)) ops]
  · intro hbr
    simp only [process_node, hres]
    rw [if_neg hmem, hbr]
    simp [normalize_output, post_process_op, repack]
  · intro hbr
    simp only [process_node, hres]
    rw [if_neg hmem, hbr]
    simp [normalize_output, post_process_op, repack]
  · intro hbr
    simp only [process_node, hres]
    rw [if_neg hmem, hbr]
    simp [normalize_output, repack]

/-- C4, witness: a two-element tuple is stored as a tuple of post-processed
operations. -/
theorem c4_witness :
    process_node two_tuple_bridge fresh_state node_foo =
      Except.ok (store_entry fresh_state node_foo
        (Entry.tuple (([⟨"t/u", 0⟩, ⟨"v", 1⟩] : List Op).map
          (fun o => { o with name := py_replace_slash o.name })))) :=
  ((c4_repack_by_length two_tuple_bridge fresh_state node_foo [] [⟨"t/u", 0⟩, ⟨"v", 1⟩]
    ⟨"z", 0⟩ (by decide) (by decide)).1) (by decide) (by decide)

/-- C5: a reference whose suffix part is not an integer raises `ValueError`,
and a reference with more than two colon-separated components fails the
`len == 2` assertion; either exception is fatal for the enclosing import
call. -/
theorem c5_malformed_suffix_raises :
    ∀ (m : List (String × Entry)) (name : String) (parts : List String) (base sfx : String),
      ( remove_tf_name_prefix name = name →
        py_split ':' name = parts →
        3 ≤ parts.length →
        get_op_handle_by_name m name = Except.error PyError.assertionError) ∧
      ( remove_tf_name_prefix name = name →
        py_split ':' name = [base, sfx] →
        py_int? sfx = Option.none →
        get_op_handle_by_name m name = Except.error PyError.valueError) ∧
      (∀ (bridge : Bridge) (s : ImporterState) (tf_node : TFNode),
        tf_node.input = [name] →
        remove_tf_name_prefix name = name →
        py_split ':' name = parts →
        3 ≤ parts.length →
        process_node bridge s tf_node = Except.error PyError.assertionError) := by
  intro m name parts base sfx
  have hA : ∀ (m2 : List (String × Entry)),
      remove_tf_name_prefix name = name →
      py_split ':' name = parts →
      3 ≤ parts.length →
      get_op_handle_by_name m2 name = Except.error PyError.assertionError := by
    intro m2 h1 h2 h3
    rcases parts with _ | ⟨a, parts⟩
    · simp at h3
    rcases parts with _ | ⟨b, parts⟩
    · simp at h3
    rcases parts with _ | ⟨c, parts⟩
    · simp at h3
    simp [get_op_handle_by_name, h1, h2]
  refine ⟨hA m, ?_, ?_⟩
  · intro h1 h2 h3
    simp [get_op_handle_by_name, h1, h2, h3]
  · intro bridge s tf_node hin h1 h2 h3
    have hg := hA s.name_op_map h1 h2 h3
    simp [process_node, hin, resolve_inputs, hg]

/-- C5, witness: `"a:1:2"` has three colon-separated components and raises. -/
theorem c5_witness :
    get_op_handle_by_name [] "a:1:2" = Except.error PyError.assertionError :=
  (c5_malformed_suffix_raises [] "a:1:2" ["a", "1", "2"] "x" "y").1
    (by decide) (by decide) (by decide)

/-- C6: when the bridge's produced operation is named after the external
node (the dispatch bridge's convention, spec section 3), the stored
operation's exposed name is the node name with every `/` replaced by `_`,
the table entry is keyed by the original un-sanitized node name, and a
later unsuffixed reference to that original name resolves to the sanitized
operation. -/
theorem c6_sanitized_name_original_key :
    ∀ (bridge : Bridge) (s : ImporterState) (tf_node : TFNode) (input_ops : List Entry) (op : Op),
      resolve_inputs s.name_op_map tf_node.input = Except.ok input_ops →
      Entry.missing ∉ input_ops →
      bridge s.init_assign_op_names tf_node input_ops = BridgeResult.single op →
      op.name = tf_node.name →
      process_node bridge s tf_node =
        Except.ok (store_entry s tf_node
          (Entry.single ⟨py_replace_slash tf_node.name, op.uid⟩)) ∧
      (store_entry s tf_node (Entry.single ⟨py_replace_slash tf_node.name, op.uid⟩)).name_op_map
        = (tf_node.name, Entry.single ⟨py_replace_slash tf_node.name, op.uid⟩) :: s.name_op_map ∧
      ( remove_tf_name_prefix tf_node.name = tf_node.name →
        py_split ':' tf_node.name = [tf_node.name] →
        get_op_handle_by_name
          (store_entry s tf_node
            (Entry.single ⟨py_replace_slash tf_node.name, op.uid⟩)).name_op_map
          tf_node.name
          = Except.ok (Entry.single ⟨py_replace_slash tf_node.name, op.uid⟩)) := by
  intro bridge s tf_node input_ops op hres hmem hbr hname
  have hmap : (store_entry s tf_node
      (Entry.single ⟨py_replace_slash tf_node.name, op.uid⟩)).name_op_map
      = (tf_node.name, Entry.single ⟨py_replace_slash tf_node.name, op.uid⟩)
        :: s.name_op_map := by
    simp only [store_entry]
    split <;> rfl
  refine ⟨?_, hmap, ?_⟩
  · simp only [process_node, hres]
    rw [if_neg hmem, hbr]
    have hop : ({ op with name := py_replace_slash op.name } : Op)
        = ⟨py_replace_slash tf_node.name, op.uid⟩ := by
      cases op
      simp_all
    simp [normalize_output, post_process_op, repack, hop]
  · intro h1 h2
    rw [hmap]
    simp [get_op_handle_by_name, h1, h2, List.lookup]

/-- C6, witness: the node `"a/b/c"` yields the operation exposed as
`"a_b_c"` keyed under `"a/b/c"`. -/
theorem c6_witness :
    process_node slash_bridge fresh_state node_abc =
      Except.ok (store_entry fresh_state node_abc
        (Entry.single ⟨py_replace_slash node_abc.name, 42⟩)) :=
  (c6_sanitized_name_original_key slash_bridge fresh_state node_abc [] ⟨node_abc.name, 42⟩
    (by decide) (by decide) (by decide) (by decide)).1

/-- C7: the bulk diagnostic query returns exactly the sorted, duplicate-free
list of the op-type strings occurring in the input and absent from the
bridge's declared capability set. -/
theorem c7_unimplemented_ops_sorted_diff :
    ∀ (lines supported_ops req res : List String),
      required_ops_of_lines lines = Except.ok req →
      get_unimplemented_ops lines supported_ops = Except.ok res →
      List.Sorted (fun a b => a ≤ b) res ∧ res.Nodup ∧
      (∀ s : String, s ∈ res ↔ (s ∈ req ∧ s ∉ supported_ops)) := by
  intro lines supported_ops req res h1 h2
  have hnd : req.Nodup := by
    simp only [required_ops_of_lines] at h1
    rcases hE : extract_ops ((lines.map py_strip).filter
        (fun l => l.toList.take 3 == "op:".toList)) with e | names
    · rw [hE] at h1
      exact absurd h1 (by simp)
    · rw [hE] at h1
      rw [← Except.ok.inj h1]
      exact List.nodup_dedup names
  have hres : res = py_sorted (req.filter (fun n => ¬ n ∈ supported_ops)) := by
    simp only [get_unimplemented_ops] at h2
    rw [h1] at h2
    exact (Except.ok.inj h2).symm
  subst hres
  simp only [py_sorted]
  have hperm := List.perm_insertionSort (fun a b : String => a ≤ b)
    (req.filter (fun n => ¬ n ∈ supported_ops))
  refine ⟨?_, ?_, ?_⟩
  · exact List.sorted_insertionSort (fun a b : String => a ≤ b)
      (req.filter (fun n => ¬ n ∈ supported_ops))
  · exact hperm.symm.nodup (hnd.filter _)
  · intro s
    rw [hperm.mem_iff, List.mem_filter]
    simp

/-- C7, witness: one unregistered op type `"FancyNewOp"` gives the
singleton result, in sorted order. -/
theorem c7_witness :
    List.Sorted (fun a b : String => a ≤ b) ["FancyNewOp"] :=
  (c7_unimplemented_ops_sorted_diff demo_lines ["Add"] ["FancyNewOp"] ["FancyNewOp"]
    (by decide) (by decide)).1

/-- C8: `reset` clears all session state (name table, bridge's assignment
set, initializer list, stored graph), and re-parsing the same node list from
a reset state is deterministic: whatever states were reset, the resulting
name tables have identical key sequences and identical per-key arity. -/
theorem c8_reset_reparse_deterministic :
    (∀ s : ImporterState,
      (reset s).name_op_map = [] ∧ (reset s).init_assign_op_names = [] ∧
      (reset s).init_ops = [] ∧ (reset s).graph_def = Option.none) ∧
    (∀ (bridge : Bridge) (nodes : List TFNode) (s1 s2 t1 t2 : ImporterState),
      parse_graph_def bridge (reset s1) nodes = Except.ok t1 →
      parse_graph_def bridge (reset s2) nodes = Except.ok t2 →
      t1.name_op_map.map Prod.fst = t2.name_op_map.map Prod.fst ∧
      ∀ k : String, (t1.name_op_map.lookup k).map entry_arity
        = (t2.name_op_map.lookup k).map entry_arity) := by
  constructor
  · intro s
    exact ⟨rfl, rfl, rfl, rfl⟩
  · intro bridge nodes s1 s2 t1 t2 h1 h2
    have he : reset s1 = reset s2 := rfl
    rw [he] at h1
    have ht : t1 = t2 := Except.ok.inj (h1.symm.trans h2)
    subst ht
    exact ⟨rfl, fun k => rfl⟩

/-- C8, witness: parsing the same singleton node list from two different
reset states yields the same table. -/
theorem c8_witness :
    parsed_foo.name_op_map.map Prod.fst = parsed_foo.name_op_map.map Prod.fst :=
  (c8_reset_reparse_deterministic.2 demo_bridge [node_foo] fresh_state dirty_state
    parsed_foo parsed_foo (by decide) (by decide)).1

/-- Writing into a heap buffer satisfies the in-place contract. -/
theorem np_write_in_place (σ : Heap) (out : Nat) (v : Buf) :
    in_place σ (np_write σ out v) out v := by
  constructor
  · simp [np_write]
  · intro b hb
    simp [np_write, hb]

/-- C9: every backend numeric kernel writes its result into the provided
output view in place — the output buffer receives exactly the kernel's
elementwise/reduction/product value and every other buffer is left
unchanged — and the output keeps its pre-allocated length (no
reallocation), shown for a binary elementwise kernel under the
correct-shape hypothesis and unconditionally for `fill`. -/
theorem c9_kernels_write_in_place :
    (∀ (σ : Heap) (x y out : Nat),
      (σ x).length = (σ out).length → (σ y).length = (σ out).length →
      ((NumPyTransformer.add σ x y out) out).length = (σ out).length) ∧
    (∀ (σ : Heap) (out : Nat) (value : Int),
      ((NumPyTransformer.fill σ out value) out).length = (σ out).length) ∧
    (∀ (σ : Heap) (x out : Nat),
      in_place σ (NumPyTransformer.absolute σ x out) out ((σ x).map (fun a => |a|))) ∧
    (∀ (σ : Heap) (x y out : Nat),
      in_place σ (NumPyTransformer.add σ x y out) out
        (List.zipWith (fun a b => a + b) (σ x) (σ y))) ∧
    (∀ (σ : Heap) (x out : Nat),
      in_place σ (NumPyTransformer.argmax σ x out) out (np_argmax (σ x))) ∧
    (∀ (σ : Heap) (x out : Nat),
      in_place σ (NumPyTransformer.argmin σ x out) out (np_argmin (σ x))) ∧
    (∀ (f : Int → Int) (σ : Heap) (x out : Nat),
      in_place σ (NumPyTransformer.cos f σ x out) out ((σ x).map f)) ∧
    (∀ (f : Int → Int → Int) (σ : Heap) (x y out : Nat),
      in_place σ (NumPyTransformer.divide f σ x y out) out
        (List.zipWith f (σ x) (σ y))) ∧
    (∀ (σ : Heap) (x y out : Nat),
      in_place σ (NumPyTransformer.dot σ x y out) out (np_dot (σ x) (σ y))) ∧
    (∀ (σ : Heap) (x y out : Nat),
      in_place σ (NumPyTransformer.equal σ x y out) out
        (List.zipWith (fun a b => if a = b then 1 else 0) (σ x) (σ y))) ∧
    (∀ (f : Int → Int) (σ : Heap) (x out : Nat),
      in_place σ (NumPyTransformer.exp f σ x out) out ((σ x).map f)) ∧
    (∀ (σ : Heap) (out : Nat) (value : Int),
      in_place σ (NumPyTransformer.fill σ out value) out
        ((σ out).map (fun _ => value))) ∧
    (∀ (σ : Heap) (x y out : Nat),
      in_place σ (NumPyTransformer.greater σ x y out) out
        (List.zipWith (fun a b => if b < a then 1 else 0) (σ x) (σ y))) ∧
    (∀ (σ : Heap) (x y out : Nat),
      in_place σ (NumPyTransformer.greater_equal σ x y out) out
        (List.zipWith (fun a b => if b ≤ a then 1 else 0) (σ x) (σ y))) ∧
    (∀ (σ : Heap) (x y out : Nat),
      in_place σ (NumPyTransformer.less σ x y out) out
        (List.zipWith (fun a b => if a < b then 1 else 0) (σ x) (σ y))) ∧
    (∀ (σ : Heap) (x y out : Nat),
      in_place σ (NumPyTransformer.less_equal σ x y out) out
        (List.zipWith (fun a b => if a ≤ b then 1 else 0) (σ x) (σ y))) ∧
    (∀ (f : Int → Int) (σ : Heap) (x out : Nat),
      in_place σ (NumPyTransformer.log f σ x out) out ((σ x).map f)) ∧
    (∀ (σ : Heap) (x out : Nat),
      in_place σ (NumPyTransformer.max σ x out) out (np_amax (σ x))) ∧
    (∀ (σ : Heap) (x y out : Nat),
      in_place σ (NumPyTransformer.maximum σ x y out) out
        (List.zipWith (fun a b => Max.max a b) (σ x) (σ y))) ∧
    (∀ (σ : Heap) (x out : Nat),
      in_place σ (NumPyTransformer.min σ x out) out (np_amin (σ x))) ∧
    (∀ (σ : Heap) (x y out : Nat),
      in_place σ (NumPyTransformer.minimum σ x y out) out
        (List.zipWith (fun a b => Min.min a b) (σ x) (σ y))) ∧
    (∀ (σ : Heap) (x y out : Nat),
      in_place σ (NumPyTransformer.multiply σ x y out) out
        (List.zipWith (fun a b => a * b) (σ x) (σ y))) ∧
    (∀ (σ : Heap) (x out : Nat),
      in_place σ (NumPyTransformer.negative σ x out) out ((σ x).map (fun a => -a))) ∧
    (∀ (σ : Heap) (x y out : Nat),
      in_place σ (NumPyTransformer.not_equal σ x y out) out
        (List.zipWith (fun a b => if a = b then 0 else 1) (σ x) (σ y))) ∧
    (∀ (f : Int → Int) (σ : Heap) (x out : Nat),
      in_place σ (NumPyTransformer.reciprocal f σ x out) out ((σ x).map f)) ∧
    (∀ (σ : Heap) (x out : Nat),
      in_place σ (NumPyTransformer.sign σ x out) out
        ((σ x).map (fun a => if a < 0 then -1 else if a = 0 then 0 else 1))) ∧
    (∀ (f : Int → Int) (σ : Heap) (x out : Nat),
      in_place σ (NumPyTransformer.sin f σ x out) out ((σ x).map f)) ∧
    (∀ (f : Int → Int) (σ : Heap) (x out : Nat),
      in_place σ (NumPyTransformer.sqrt f σ x out) out ((σ x).map f)) ∧
    (∀ (σ : Heap) (x out : Nat),
      in_place σ (NumPyTransformer.square σ x out) out ((σ x).map (fun a => a * a))) ∧
    (∀ (σ : Heap) (x y out : Nat),
      in_place σ (NumPyTransformer.subtract σ x y out) out
        (List.zipWith (fun a b => a - b) (σ x) (σ y))) ∧
    (∀ (σ : Heap) (x out : Nat),
      in_place σ (NumPyTransformer.sum σ x out) out (np_sum0 (σ x))) ∧
    (∀ (f : Int → Int) (σ : Heap) (x out : Nat),
      in_place σ (NumPyTransformer.tanh f σ x out) out ((σ x).map f)) ∧
    (∀ (σ : Heap) (tensor item : Nat) (value : Int),
      in_place σ (NumPyTransformer.set_item σ tensor item value) tensor
        ((σ tensor).set item value)) := by
  refine ⟨?_, ?_, ?_, ?_, ?_, ?_, ?_, ?_, ?_, ?_, ?_, ?_, ?_, ?_, ?_, ?_, ?_, ?_, ?_, ?_,
    ?_, ?_, ?_, ?_, ?_, ?_, ?_, ?_, ?_, ?_, ?_, ?_, ?_⟩
  · intro σ x y out h1 h2
    simp [NumPyTransformer.add, np_write, List.length_zipWith, h1, h2]
  · intro σ out value
    simp [NumPyTransformer.fill, np_write]
  · exact fun σ x out => np_write_in_place σ out _
  · exact fun σ x y out => np_write_in_place σ out _
  · exact fun σ x out => np_write_in_place σ out _
  · exact fun σ x out => np_write_in_place σ out _
  · exact fun f σ x out => np_write_in_place σ out _
  · exact fun f σ x y out => np_write_in_place σ out _
  · exact fun σ x y out => np_write_in_place σ out _
  · exact fun σ x y out => np_write_in_place σ out _
  · exact fun f σ x out => np_write_in_place σ out _
  · exact fun σ out value => np_write_in_place σ out _
  · exact fun σ x y out => np_write_in_place σ out _
  · exact fun σ x y out => np_write_in_place σ out _
  · exact fun σ x y out => np_write_in_place σ out _
  · exact fun σ x y out => np_write_in_place σ out _
  · exact fun f σ x out => np_write_in_place σ out _
  · exact fun σ x out => np_write_in_place σ out _
  · exact fun σ x y out => np_write_in_place σ out _
  · exact fun σ x out => np_write_in_place σ out _
  · exact fun σ x y out => np_write_in_place σ out _
  · exact fun σ x y out => np_write_in_place σ out _
  · exact fun σ x out => np_write_in_place σ out _
  · exact fun σ x y out => np_write_in_place σ out _
  · exact fun f σ x out => np_write_in_place σ out _
  · exact fun σ x out => np_write_in_place σ out _
  · exact fun f σ x out => np_write_in_place σ out _
  · exact fun f σ x out => np_write_in_place σ out _
  · exact fun σ x out => np_write_in_place σ out _
  · exact fun σ x y out => np_write_in_place σ out _
  · exact fun σ x out => np_write_in_place σ out _
  · exact fun f σ x out => np_write_in_place σ out _
  · exact fun σ tensor item value => np_write_in_place σ tensor _

/-- A two-element buffer at every identity, for the C9 witness. -/
def heap0 : Heap := fun n => [(n : Int), (n : Int) + 1]

/-- C9, witness: an in-place add on concrete buffers keeps the output's
length. -/
theorem c9_witness :
    ((NumPyTransformer.add heap0 1 2 0) 0).length = (heap0 0).length :=
  c9_kernels_write_in_place.1 heap0 1 2 0 (by decide) (by decide)

/-- C10: on a single-valued table entry, a suffixed reference succeeds
exactly at index 0 (returning the stored operation, the same value the
unsuffixed reference returns) and fails the `idx == 0` assertion for every
other index. -/
theorem c10_single_entry_index_zero_only :
    ∀ (m : List (String × Entry)) (name base sfx : String) (k : Int) (op : Op),
      remove_tf_name_prefix name = name →
      py_split ':' name = [base, sfx] →
      py_int? sfx = Option.some k →
      m.lookup base = Option.some (Entry.single op) →
      (k = 0 → get_op_handle_by_name m name = Except.ok (Entry.single op)) ∧
      (k ≠ 0 → get_op_handle_by_name m name = Except.error PyError.assertionError) ∧
      ( remove_tf_name_prefix base = base →
        py_split ':' base = [base] →
        get_op_handle_by_name m base = Except.ok (Entry.single op)) := by
  intro m name base sfx k op h1 h2 h3 h4
  refine ⟨?_, ?_, ?_⟩
  · intro hk
    simp [get_op_handle_by_name, h1, h2, h3, h4, hk]
  · intro hk
    simp [get_op_handle_by_name, h1, h2, h3, h4, hk]
  · intro h5 h6
    simp [get_op_handle_by_name, h5, h6, h4]

/-- C10, witness: `"s:0"` on a single-valued entry returns the stored
operation. -/
theorem c10_witness :
    get_op_handle_by_name single_map "s:0" = Except.ok (Entry.single ⟨"s", 5⟩) :=
  ((c10_single_entry_index_zero_only single_map "s:0" "s" "0" 0 ⟨"s", 5⟩
    (by decide) (by decide) (by decide) (by decide)).1) (by decide)

end NGraph
